import Mathlib

/-!
Shallow embedding of the Benetech fine-tuning repository
(`main.py`, `benetech_pl/train.py`, `benetech_decoder/modules.py`)
and proofs of the spec's claims about it.

Tensors are modelled at shape level (the claims are about shapes and
which fields a batch mapping holds); tokenization by the external
HuggingFace processor is modelled from the spec's description of its
contract (pad to the longest sequence in the batch, truncate at a
configured max length); the model forward pass, generation, decoding
and the metric are abstract parameters, since they live in external
libraries the repo treats as black-box collaborators.
-/

namespace Benetech

/-- Shape-level model of a torch tensor: only the shape is relevant to
the claims under study. -/
structure Tensor where
  shape : List Nat
deriving DecidableEq

/-- Model of `torch.stack`: requires a non-empty list of tensors of one
shared shape and prepends a new leading dimension; any other input
raises (modelled as `none`). -/
def torchStack (ts : List Tensor) : Option Tensor :=
  match ts with
  | [] => none
  | t :: rest =>
      if rest.all (fun u => u.shape == t.shape) then
        some ⟨ts.length :: t.shape⟩
      else
        none

/-- An encoded sample as produced by `ImageCaptioningDataset.__getitem__`:
a flattened-patches tensor, an attention mask, and the raw text label. -/
structure EncodedSample where
  flattened_patches : Tensor
  attention_mask : Tensor
  text : String
deriving DecidableEq

/-- Modelled from the spec: the external HuggingFace processor's text
tokenization with `padding="longest"`, `truncation=True` and a
`max_length` bound, as used by `BenetechDataModule.collator`.  Each text
is tokenized (`tokenize` is the abstract tokenizer, special tokens
included), truncated to `maxLength`, and padded with `padId` to the
longest (truncated) sequence of this batch. -/
def tokenizePadLongest (tokenize : String → List Nat) (padId maxLength : Nat)
    (texts : List String) : List (List Nat) :=
  (texts.map (fun t => (tokenize t).take maxLength)).map
    (fun s =>
      s ++ List.replicate
        ((((texts.map (fun t => (tokenize t).take maxLength)).map
            List.length).foldr Nat.max 0) - s.length) padId)

/-- The batch mapping produced by `BenetechDataModule.collator`. -/
structure CollatedBatch where
  flattened_patches : Tensor
  attention_mask : Tensor
  labels : List (List Nat)
  texts : List String
deriving DecidableEq

/-- `BenetechDataModule.collator`: tokenize the texts jointly with
longest padding and truncation at `maxLength`, keep the raw texts, and
stack the per-item patch and mask tensors along a new leading
dimension.  A failing stack (empty batch or mismatched shapes) raises,
modelled as `none`. -/
def collator (tokenize : String → List Nat) (padId maxLength : Nat)
    (batch : List EncodedSample) : Option CollatedBatch :=
  match torchStack (batch.map EncodedSample.flattened_patches),
        torchStack (batch.map EncodedSample.attention_mask) with
  | some fp, some am =>
      some { flattened_patches := fp,
             attention_mask := am,
             labels := tokenizePadLongest tokenize padId maxLength
                         (batch.map EncodedSample.text),
             texts := batch.map EncodedSample.text }
  | _, _ => none

/-- Every member of a list of naturals is bounded by its `foldr max`. -/
theorem mem_le_foldr_max {l : List Nat} {x : Nat} (hx : x ∈ l) :
    x ≤ l.foldr Nat.max 0 := by
  induction l with
  | nil => cases hx
  | cons a t ih =>
      rcases List.mem_cons.mp hx with h | h
      · subst h; exact Nat.le_max_left _ _
      · exact le_trans (ih h) (Nat.le_max_right _ _)

/-- `foldr max` commutes with capping every element at `M`. -/
theorem foldr_max_map_min (M : Nat) (l : List Nat) :
    (l.map (fun x => Nat.min M x)).foldr Nat.max 0
      = Nat.min (l.foldr Nat.max 0) M := by
  induction l with
  | nil => simp
  | cons a t ih =>
      simp only [List.map_cons, List.foldr_cons, ih]
      simp only [Nat.min_def, Nat.max_def]
      split_ifs <;> omega

/-- `foldr max` of a non-empty constant list is the constant. -/
theorem foldr_max_const {l : List Nat} {L : Nat} (hne : l ≠ [])
    (h : ∀ x ∈ l, x = L) : l.foldr Nat.max 0 = L := by
  induction l with
  | nil => cases hne rfl
  | cons a t ih =>
      have ha := h a (List.mem_cons_self a t)
      cases t with
      | nil => simp [ha]
      | cons b u =>
          rw [List.foldr_cons,
            ih (by simp) (fun x hx => h x (List.mem_cons_of_mem _ hx)), ha]
          simp

/-- Mapping a function that fixes every element of a list is the
identity on that list. -/
theorem map_id_on {α : Type} (f : α → α) (l : List α)
    (h : ∀ x ∈ l, f x = x) : l.map f = l := by
  induction l with
  | nil => rfl
  | cons a t ih =>
      rw [List.map_cons, h a (List.mem_cons_self a t),
        ih (fun x hx => h x (List.mem_cons_of_mem _ hx))]

/-- Every row produced by `tokenizePadLongest` has length equal to the
longest tokenized length of the batch, capped at `maxLength`. -/
theorem tokenizePadLongest_row_length
    (tokenize : String → List Nat) (padId maxLength : Nat)
    (texts : List String) :
    ∀ row ∈ tokenizePadLongest tokenize padId maxLength texts,
      row.length
        = Nat.min ((texts.map (fun t => (tokenize t).length)).foldr Nat.max 0)
            maxLength := by
  intro row hrow
  unfold tokenizePadLongest at hrow
  rcases List.mem_map.mp hrow with ⟨s, hs, rfl⟩
  have hlenmap :
      (texts.map (fun t => (tokenize t).take maxLength)).map List.length
        = texts.map (fun t => Nat.min maxLength (tokenize t).length) := by
    rw [List.map_map]
    refine List.map_congr_left ?_
    intro t _
    simp [List.length_take]
  have hfold :
      ((texts.map (fun t => (tokenize t).take maxLength)).map
          List.length).foldr Nat.max 0
        = Nat.min ((texts.map (fun t => (tokenize t).length)).foldr Nat.max 0)
            maxLength := by
    rw [hlenmap]
    have := foldr_max_map_min maxLength (texts.map (fun t => (tokenize t).length))
    rw [List.map_map] at this
    exact this
  have hsle : s.length
      ≤ ((texts.map (fun t => (tokenize t).take maxLength)).map
          List.length).foldr Nat.max 0 :=
    mem_le_foldr_max (List.mem_map_of_mem List.length hs)
  rw [List.length_append, List.length_replicate]
  omega

/-- Stacking a non-empty list of tensors of one shared shape succeeds
and prepends the list length as leading dimension. -/
theorem torchStack_of_all_eq (ts : List Tensor) (s : List Nat)
    (hne : ts ≠ []) (h : ∀ t ∈ ts, t.shape = s) :
    torchStack ts = some ⟨ts.length :: s⟩ := by
  cases ts with
  | nil => cases hne rfl
  | cons t rest =>
      have ht : t.shape = s := h t (List.mem_cons_self t rest)
      have hall : rest.all (fun u => u.shape == t.shape) = true := by
        rw [List.all_eq_true]
        intro u hu
        have hu' := h u (List.mem_cons_of_mem _ hu)
        simp [hu', ht]
      unfold torchStack
      simp [hall, ht]
      exact fun x hx => h x (List.mem_cons_of_mem _ hx)

/-- The run configuration, `config = SimpleNamespace(...)` in `main.py`.
`learning_rate = 1e-5` is the exact rational `1/100000`. -/
structure Config where
  data_dir : String
  model_save_dir : String
  model_path : String
  processor_path : String
  project : String
  save_model : Bool
  max_patches : Int
  max_length : Int
  batch_size : Int
  epochs : Int
  learning_rate : Rat
  verbose : Int
  num_workers : Int
  seed : Int
  accelerator : String
  fast_dev_run : Bool
  overfit_batches : Int
  devices : Int
  precision : Int
  log_every_n_steps : Int
  accumulate_grad_batches : Int
deriving DecidableEq

/-- The default configuration object of `main.py`. -/
def defaultConfig : Config where
  data_dir := "/data/bartley/gpu_test/bartley-benetech-resized/"
  model_save_dir := "/data/bartley/gpu_test/models/"
  model_path := "google/deplot"
  processor_path := "google/deplot"
  project := "Benetech"
  save_model := true
  max_patches := 1024
  max_length := 512
  batch_size := 3
  epochs := 1
  learning_rate := 1 / 100000
  verbose := 2
  num_workers := 4
  seed := 0
  accelerator := "gpu"
  fast_dev_run := false
  overfit_batches := 0
  devices := 1
  precision := 32
  log_every_n_steps := 10
  accumulate_grad_batches := 1

/-- The command-line flags accepted by `parse_args` in `main.py`:
`--fast_dev_run` is a `store_true` flag (present or absent), the four
integer flags are `none` when the user leaves them unset. -/
structure CliArgs where
  fast_dev_run : Bool
  seed : Option Int
  batch_size : Option Int
  accumulate_grad_batches : Option Int
  max_patches : Option Int
deriving DecidableEq

/-- A CLI invocation with every flag left unset. -/
def noCliFlags : CliArgs where
  fast_dev_run := false
  seed := none
  batch_size := none
  accumulate_grad_batches := none
  max_patches := none

/-- `parse_args` of `main.py`: each argparse flag takes the user's value
when set and its declared argparse default otherwise, and the parsed
values overwrite the corresponding config attributes.  The argparse
defaults are taken from the source: `seed`, `batch_size` and
`accumulate_grad_batches` default to the config attribute of the same
name, while `max_patches` is declared with `default=config.batch_size`
(source line 38) and `fast_dev_run` is a `store_true` flag defaulting
to false. -/
def parse_args (cli : CliArgs) (config : Config) : Config :=
  { config with
    fast_dev_run := cli.fast_dev_run
    seed := cli.seed.getD config.seed
    batch_size := cli.batch_size.getD config.batch_size
    accumulate_grad_batches :=
      cli.accumulate_grad_batches.getD config.accumulate_grad_batches
    max_patches := cli.max_patches.getD config.batch_size }

/-- The hyperparameters saved by `BenetechModule.__init__` (the
`processor` is modelled separately as a `Tokenizer`). -/
structure Hparams where
  learning_rate : Rat
  max_length : Nat
  model_path : String
  model_save_dir : String
  run_name : String
  save_model : Bool
deriving DecidableEq

/-- The token identifiers exposed by `processor.tokenizer`. -/
structure Tokenizer where
  eos_token_id : Nat
  pad_token_id : Nat
deriving DecidableEq

/-- The mutable batch dictionary passed to `_shared_step`: each key is
present (`some`) or already popped (`none`). -/
structure StepBatch where
  labels : Option (List (List Nat))
  flattened_patches : Option Tensor
  attention_mask : Option Tensor
  texts : Option (List String)
deriving DecidableEq

/-- One `self.log(name, value, batch_size=...)` call. -/
structure LogEntry where
  name : String
  value : Int
  batchSize : Nat
deriving DecidableEq

/-- The keyword arguments of one `self.model.generate(...)` call inside
the validation branch of `_shared_step`. -/
structure GenerateCall where
  max_new_tokens : Nat
  early_stopping : Bool
  use_cache : Bool
  eos_token_id : Nat
  pad_token_id : Nat
deriving DecidableEq

/-- The observable outcome of one `_shared_step` call: the value
returned to the caller, the batch dictionary after its in-place `pop`
mutations, the `self.log` calls made, the metric accumulator after the
step, and the `generate` calls issued. -/
structure StepOut where
  ret : Option Int
  batch : StepBatch
  logs : List LogEntry
  metricState : List (List String × List String)
  generateCalls : List GenerateCall
deriving DecidableEq

/-- `BenetechModule._shared_step`.  The external collaborators are
abstract parameters: `forward` is the model's loss-producing forward
pass, `generate` its autoregressive generation, `batchDecode` the
processor's decoding, and `metricCompute` the black-box Benetech metric
evaluated on the accumulated update calls (`metricState`).  The three
`batch.pop` calls (and, in the valid branch, the fourth) mutate the
batch dictionary; a missing key raises, modelled as `.error`. -/
def sharedStep (hp : Hparams) (tok : Tokenizer)
    (forward : Tensor → Tensor → List (List Nat) → Int)
    (generate : Tensor → Tensor → GenerateCall → List (List Nat))
    (batchDecode : List (List Nat) → List String)
    (metricCompute : List (List String × List String) → Int)
    (metricState : List (List String × List String))
    (stage : String) (batch : StepBatch) : Except String StepOut :=
  match batch.labels with
  | none => .error "KeyError: labels"
  | some labels =>
    match batch.flattened_patches with
    | none => .error "KeyError: flattened_patches"
    | some fp =>
      match batch.attention_mask with
      | none => .error "KeyError: attention_mask"
      | some am =>
        let batch1 : StepBatch :=
          { batch with
            labels := none, flattened_patches := none, attention_mask := none }
        let loss := forward fp am labels
        let lossLog : LogEntry :=
          { name := stage ++ "_loss", value := loss, batchSize := labels.length }
        if stage = "valid" then
          let gc : GenerateCall :=
            { max_new_tokens := hp.max_length
              early_stopping := true
              use_cache := true
              eos_token_id := tok.eos_token_id
              pad_token_id := tok.pad_token_id }
          let predictions := batchDecode (generate fp am gc)
          match batch1.texts with
          | none => .error "KeyError: texts"
          | some ground_truths =>
            let newState := metricState ++ [(ground_truths, predictions)]
            .ok { ret := none
                  batch := { batch1 with texts := none }
                  logs := [lossLog,
                    { name := "benetech_score"
                      value := metricCompute newState
                      batchSize := labels.length }]
                  metricState := newState
                  generateCalls := [gc] }
        else
          .ok { ret := some loss
                batch := batch1
                logs := [lossLog]
                metricState := metricState
                generateCalls := [] }

/-- `BenetechModule.training_step`: returns whatever `_shared_step`
returns in the `"train"` stage. -/
def trainingStep (hp : Hparams) (tok : Tokenizer)
    (forward : Tensor → Tensor → List (List Nat) → Int)
    (generate : Tensor → Tensor → GenerateCall → List (List Nat))
    (batchDecode : List (List Nat) → List String)
    (metricCompute : List (List String × List String) → Int)
    (metricState : List (List String × List String))
    (batch : StepBatch) : Except String StepOut :=
  sharedStep hp tok forward generate batchDecode metricCompute metricState
    "train" batch

/-- `BenetechModule.validation_step`: runs `_shared_step` in the
`"valid"` stage, binds the result to a local (`pred = ...`) and falls
off the end of the function body, so the caller receives `None`. -/
def validationStep (hp : Hparams) (tok : Tokenizer)
    (forward : Tensor → Tensor → List (List Nat) → Int)
    (generate : Tensor → Tensor → GenerateCall → List (List Nat))
    (batchDecode : List (List Nat) → List String)
    (metricCompute : List (List String × List String) → Int)
    (metricState : List (List String × List String))
    (batch : StepBatch) : Except String StepOut :=
  match sharedStep hp tok forward generate batchDecode metricCompute metricState
      "valid" batch with
  | .error e => .error e
  | .ok out => .ok { out with ret := none }

/-- `BenetechModule.on_train_end`: the path of the saved artifact, or
`none` when nothing is saved.  The path is
`'\x7b\x7d\x7b\x7d.pt'.format(model_save_dir, run_name)`. -/
def onTrainEnd (hp : Hparams) : Option String :=
  if hp.save_model then
    some (hp.model_save_dir ++ hp.run_name ++ ".pt")
  else
    none

/-- The model object produced by `_init_model` — the repo only touches
`model.config.text_config.is_decoder`. -/
structure PModel where
  text_config_is_decoder : Bool
deriving DecidableEq

/-- `BenetechModule._init_model`: only `"google/deplot"` is accepted;
every other identifier raises
`ValueError(f"\x7bmodel_path\x7d is not a valid model")`. -/
def initModel (model_path : String) : Except String PModel :=
  if model_path = "google/deplot" then
    .ok { text_config_is_decoder := true }
  else
    .error (model_path ++ " is not a valid model")

/-- The externally visible events of the training driver
`benetech_pl.train.train`, in program order. -/
inductive TrainEvent
  | seedEverything (seed : Int)
  | dataModuleConstructed
  | moduleConstructed
  | datasetsLoaded
  | trainerFit
deriving DecidableEq

/-- `benetech_pl.train.train` as an event trace: seed the RNGs,
construct the data module (which loads only the processor; the datasets
are loaded later in `setup`, called from `trainer.fit`), construct the
`BenetechModule` (whose `__init__` calls `_init_model` and may raise),
then hand control to `trainer.fit`, which loads the datasets and
trains.  Returns the events that happened plus the error that
interrupted the run, if any. -/
def trainDriver (cfg : Config) : List TrainEvent × Option String :=
  match initModel cfg.model_path with
  | .error e =>
      ([TrainEvent.seedEverything cfg.seed, TrainEvent.dataModuleConstructed],
       some e)
  | .ok _ =>
      ([TrainEvent.seedEverything cfg.seed, TrainEvent.dataModuleConstructed,
        TrainEvent.moduleConstructed, TrainEvent.datasetsLoaded,
        TrainEvent.trainerFit],
       none)

/-- The part of the module state relevant to the placeholder epoch-end
hook: the `validation_step_outputs` container. -/
structure ContainerState where
  validation_step_outputs : List String
deriving DecidableEq

/-- `BenetechModule.__init__` line 134: `self.validation_step_outputs = []`. -/
def initContainers : ContainerState where
  validation_step_outputs := []

/-- The module operations that could touch `validation_step_outputs`. -/
inductive ModuleOp
  | trainingStepOp
  | validationStepOp
  | validationEpochEndOp
deriving DecidableEq

/-- Effect of each module operation on `validation_step_outputs`:
neither step ever appends to it (no statement in `_shared_step`,
`training_step` or `validation_step` mentions it), and
`on_validation_epoch_end` clears it. -/
def applyOp (s : ContainerState) : ModuleOp → ContainerState
  | .trainingStepOp => s
  | .validationStepOp => s
  | .validationEpochEndOp => { s with validation_step_outputs := [] }

/-- Evaluation of `_shared_step` in the `"train"` stage on a batch with
all keys present. -/
theorem sharedStep_train_eq (hp : Hparams) (tok : Tokenizer)
    (forward : Tensor → Tensor → List (List Nat) → Int)
    (generate : Tensor → Tensor → GenerateCall → List (List Nat))
    (batchDecode : List (List Nat) → List String)
    (metricCompute : List (List String × List String) → Int)
    (metricState : List (List String × List String))
    (labels : List (List Nat)) (fp am : Tensor) (bt : Option (List String)) :
    sharedStep hp tok forward generate batchDecode metricCompute metricState
      "train" ⟨some labels, some fp, some am, bt⟩
      = .ok { ret := some (forward fp am labels)
              batch := ⟨none, none, none, bt⟩
              logs := [{ name := "train_loss", value := forward fp am labels,
                         batchSize := labels.length }]
              metricState := metricState
              generateCalls := [] } := rfl

/-- Evaluation of `_shared_step` in the `"valid"` stage on a batch with
all keys present. -/
theorem sharedStep_valid_eq (hp : Hparams) (tok : Tokenizer)
    (forward : Tensor → Tensor → List (List Nat) → Int)
    (generate : Tensor → Tensor → GenerateCall → List (List Nat))
    (batchDecode : List (List Nat) → List String)
    (metricCompute : List (List String × List String) → Int)
    (metricState : List (List String × List String))
    (labels : List (List Nat)) (fp am : Tensor) (gts : List String) :
    sharedStep hp tok forward generate batchDecode metricCompute metricState
      "valid" ⟨some labels, some fp, some am, some gts⟩
      = .ok { ret := none
              batch := ⟨none, none, none, none⟩
              logs := [{ name := "valid_loss", value := forward fp am labels,
                         batchSize := labels.length },
                       { name := "benetech_score"
                         value := metricCompute (metricState ++
                           [(gts, batchDecode (generate fp am
                             ⟨hp.max_length, true, true, tok.eos_token_id,
                              tok.pad_token_id⟩))])
                         batchSize := labels.length }]
              metricState := metricState ++
                [(gts, batchDecode (generate fp am
                  ⟨hp.max_length, true, true, tok.eos_token_id,
                   tok.pad_token_id⟩))]
              generateCalls := [⟨hp.max_length, true, true, tok.eos_token_id,
                                tok.pad_token_id⟩] } := rfl

/-- Evaluation of `validation_step` on a batch with all keys present. -/
theorem validationStep_eq (hp : Hparams) (tok : Tokenizer)
    (forward : Tensor → Tensor → List (List Nat) → Int)
    (generate : Tensor → Tensor → GenerateCall → List (List Nat))
    (batchDecode : List (List Nat) → List String)
    (metricCompute : List (List String × List String) → Int)
    (metricState : List (List String × List String))
    (labels : List (List Nat)) (fp am : Tensor) (gts : List String) :
    validationStep hp tok forward generate batchDecode metricCompute metricState
      ⟨some labels, some fp, some am, some gts⟩
      = .ok { ret := none
              batch := ⟨none, none, none, none⟩
              logs := [{ name := "valid_loss", value := forward fp am labels,
                         batchSize := labels.length },
                       { name := "benetech_score"
                         value := metricCompute (metricState ++
                           [(gts, batchDecode (generate fp am
                             ⟨hp.max_length, true, true, tok.eos_token_id,
                              tok.pad_token_id⟩))])
                         batchSize := labels.length }]
              metricState := metricState ++
                [(gts, batchDecode (generate fp am
                  ⟨hp.max_length, true, true, tok.eos_token_id,
                   tok.pad_token_id⟩))]
              generateCalls := [⟨hp.max_length, true, true, tok.eos_token_id,
                                tok.pad_token_id⟩] } := by
  unfold validationStep
  rw [sharedStep_valid_eq]

/-- C1: for every non-empty list of encoded samples whose patch and mask
tensors have the per-item shapes fixed by the max-patches configuration,
the collator returns a batch in which `flattened_patches` and
`attention_mask` are stacks with leading dimension `batch.length`, and
every row of `labels` has length equal to the longest tokenized text of
the batch, capped at the configured max length. -/
theorem collator_batch_leading_dim_and_label_length
    (tokenize : String → List Nat) (padId maxLength maxPatches d : Nat)
    (batch : List EncodedSample) (hne : batch ≠ [])
    (hwf : ∀ e ∈ batch,
      e.flattened_patches.shape = [maxPatches, d] ∧
      e.attention_mask.shape = [maxPatches]) :
    ∃ b, collator tokenize padId maxLength batch = some b ∧
      b.flattened_patches.shape = batch.length :: [maxPatches, d] ∧
      b.attention_mask.shape = batch.length :: [maxPatches] ∧
      ∀ row ∈ b.labels,
        row.length = Nat.min
          ((batch.map (fun e => (tokenize e.text).length)).foldr Nat.max 0)
          maxLength := by
  have hnef : batch.map EncodedSample.flattened_patches ≠ [] := by
    simpa using hne
  have hnea : batch.map EncodedSample.attention_mask ≠ [] := by
    simpa using hne
  have hmemf : ∀ t ∈ batch.map EncodedSample.flattened_patches,
      t.shape = [maxPatches, d] := by
    intro t ht
    rcases List.mem_map.mp ht with ⟨e, he, rfl⟩
    exact (hwf e he).1
  have hmema : ∀ t ∈ batch.map EncodedSample.attention_mask,
      t.shape = [maxPatches] := by
    intro t ht
    rcases List.mem_map.mp ht with ⟨e, he, rfl⟩
    exact (hwf e he).2
  have hfp := torchStack_of_all_eq _ _ hnef hmemf
  have ham := torchStack_of_all_eq _ _ hnea hmema
  rw [List.length_map] at hfp ham
  unfold collator
  rw [hfp, ham]
  refine ⟨_, rfl, rfl, rfl, ?_⟩
  intro row hrow
  have h := tokenizePadLongest_row_length tokenize padId maxLength
    (batch.map EncodedSample.text) row hrow
  rw [h, List.map_map]
  rfl

/-- A tokenizer fixture: `tok5 s` is `s.length` copies of token `5`. -/
def tok5 : String → List Nat := fun s => List.replicate s.length 5

/-- Encoded-sample fixture with patch shape `[4, 10]`, mask shape `[4]`. -/
def sampleA : EncodedSample := ⟨⟨[4, 10]⟩, ⟨[4]⟩, "ab"⟩

/-- Second encoded-sample fixture with the same shapes. -/
def sampleB : EncodedSample := ⟨⟨[4, 10]⟩, ⟨[4]⟩, "c"⟩

/-- Witness for C1 at a concrete two-sample batch. -/
theorem collator_batch_witness :
    ([sampleA, sampleB] ≠ ([] : List EncodedSample)) ∧
    (∀ e ∈ [sampleA, sampleB],
      e.flattened_patches.shape = [4, 10] ∧ e.attention_mask.shape = [4]) ∧
    (∃ b, collator tok5 0 512 [sampleA, sampleB] = some b ∧
      b.flattened_patches.shape = [sampleA, sampleB].length :: [4, 10] ∧
      b.attention_mask.shape = [sampleA, sampleB].length :: [4] ∧
      ∀ row ∈ b.labels,
        row.length = Nat.min
          (([sampleA, sampleB].map (fun e => (tok5 e.text).length)).foldr
            Nat.max 0) 512) :=
  ⟨by decide, by decide,
   collator_batch_leading_dim_and_label_length tok5 0 512 4 10
     [sampleA, sampleB] (by decide) (by decide)⟩

/-- C2 (code bug): with every CLI flag left unset, `parse_args` sets
`max_patches` to the configuration object's `batch_size` (that is, `3`),
not its `max_patches` (`1024`), because the `--max_patches` flag is
declared with `default=config.batch_size` in `main.py` line 38. -/
theorem parse_args_unset_max_patches_uses_batch_size :
    (parse_args noCliFlags defaultConfig).max_patches = defaultConfig.batch_size ∧
    (parse_args noCliFlags defaultConfig).max_patches = 3 ∧
    defaultConfig.max_patches = 1024 ∧
    (parse_args noCliFlags defaultConfig).max_patches ≠ defaultConfig.max_patches ∧
    (parse_args noCliFlags defaultConfig).seed = defaultConfig.seed ∧
    (parse_args noCliFlags defaultConfig).batch_size = defaultConfig.batch_size ∧
    (parse_args noCliFlags defaultConfig).accumulate_grad_batches
      = defaultConfig.accumulate_grad_batches ∧
    (parse_args noCliFlags defaultConfig).fast_dev_run = defaultConfig.fast_dev_run := by
  refine ⟨rfl, rfl, rfl, by decide, rfl, rfl, rfl, rfl⟩

/-- C3: a training step on a batch holding `labels`,
`flattened_patches` and `attention_mask` returns the scalar loss of the
forward pass, and its only log call is a `"train_loss"` entry whose
`batch_size` is the number of labels in the batch. -/
theorem training_step_returns_loss_logs_scaled
    (hp : Hparams) (tok : Tokenizer)
    (forward : Tensor → Tensor → List (List Nat) → Int)
    (generate : Tensor → Tensor → GenerateCall → List (List Nat))
    (batchDecode : List (List Nat) → List String)
    (metricCompute : List (List String × List String) → Int)
    (metricState : List (List String × List String))
    (batch : StepBatch) (labels : List (List Nat)) (fp am : Tensor)
    (hl : batch.labels = some labels)
    (hf : batch.flattened_patches = some fp)
    (ha : batch.attention_mask = some am) :
    ∃ out, trainingStep hp tok forward generate batchDecode metricCompute
        metricState batch = .ok out ∧
      out.ret = some (forward fp am labels) ∧
      out.logs = [{ name := "train_loss", value := forward fp am labels,
                    batchSize := labels.length }] := by
  obtain ⟨bl, bf, ba, bt⟩ := batch
  have hl' : bl = some labels := hl
  have hf' : bf = some fp := hf
  have ha' : ba = some am := ha
  subst hl' hf' ha'
  exact ⟨_, sharedStep_train_eq hp tok forward generate batchDecode
    metricCompute metricState labels fp am bt, rfl, rfl⟩

/-- Hparams fixture matching the default configuration. -/
def hp0 : Hparams :=
  ⟨1 / 100000, 512, "google/deplot", "/data/bartley/gpu_test/models/",
   "run1", true⟩

/-- Tokenizer fixture: eos id `1`, pad id `0`. -/
def tok0 : Tokenizer := ⟨1, 0⟩

/-- Forward-pass fixture returning loss `7`. -/
def forward0 : Tensor → Tensor → List (List Nat) → Int := fun _ _ _ => 7

/-- Generation fixture returning one token row. -/
def generate0 : Tensor → Tensor → GenerateCall → List (List Nat) :=
  fun _ _ _ => [[1, 0]]

/-- Decoding fixture. -/
def decode0 : List (List Nat) → List String := fun _ => ["pred1", "pred2"]

/-- Metric fixture returning score `0`. -/
def metric0 : List (List String × List String) → Int := fun _ => 0

/-- Batch fixture with all four keys present (two label rows). -/
def batch0 : StepBatch :=
  ⟨some [[1, 2], [3]], some ⟨[4, 10]⟩, some ⟨[4]⟩, some ["t1", "t2"]⟩

/-- Witness for C3 at the concrete fixtures. -/
theorem training_step_witness :
    batch0.labels = some [[1, 2], [3]] ∧
    batch0.flattened_patches = some ⟨[4, 10]⟩ ∧
    batch0.attention_mask = some ⟨[4]⟩ ∧
    ∃ out, trainingStep hp0 tok0 forward0 generate0 decode0 metric0 [] batch0
        = .ok out ∧
      out.ret = some 7 ∧
      out.logs = [{ name := "train_loss", value := 7, batchSize := 2 }] :=
  ⟨rfl, rfl, rfl,
   training_step_returns_loss_logs_scaled hp0 tok0 forward0 generate0 decode0
     metric0 [] batch0 [[1, 2], [3]] ⟨[4, 10]⟩ ⟨[4]⟩ rfl rfl rfl⟩

/-- C4: for every model path other than `"google/deplot"`, `_init_model`
raises a `ValueError` at module construction, and in the training driver
the run stops there with that error: the trace contains no
dataset-loading event and no trainer-fit event. -/
theorem invalid_model_raises_before_data_loading (cfg : Config)
    (h : cfg.model_path ≠ "google/deplot") :
    initModel cfg.model_path
      = .error (cfg.model_path ++ " is not a valid model") ∧
    (trainDriver cfg).2 = some (cfg.model_path ++ " is not a valid model") ∧
    TrainEvent.datasetsLoaded ∉ (trainDriver cfg).1 ∧
    TrainEvent.trainerFit ∉ (trainDriver cfg).1 := by
  have hm : initModel cfg.model_path
      = .error (cfg.model_path ++ " is not a valid model") := by
    unfold initModel
    rw [if_neg h]
  refine ⟨hm, ?_, ?_, ?_⟩
  · unfold trainDriver
    rw [hm]
  · unfold trainDriver
    rw [hm]
    simp
  · unfold trainDriver
    rw [hm]
    simp

/-- Config fixture with an unsupported model identifier. -/
def badConfig : Config := { defaultConfig with model_path := "google/matcha" }

/-- Witness for C4 at the unsupported identifier `"google/matcha"`. -/
theorem invalid_model_witness :
    badConfig.model_path ≠ "google/deplot" ∧
    (initModel badConfig.model_path
        = .error (badConfig.model_path ++ " is not a valid model") ∧
      (trainDriver badConfig).2
        = some (badConfig.model_path ++ " is not a valid model") ∧
      TrainEvent.datasetsLoaded ∉ (trainDriver badConfig).1 ∧
      TrainEvent.trainerFit ∉ (trainDriver badConfig).1) :=
  ⟨by decide, invalid_model_raises_before_data_loading badConfig (by decide)⟩

/-- C5: `on_train_end` writes the artifact exactly to
`model_save_dir ++ run_name ++ ".pt"`, and it does so if and only if the
`save_model` flag is true; when the flag is false no path is written. -/
theorem on_train_end_saves_iff_flag (hp : Hparams) :
    (onTrainEnd hp = some (hp.model_save_dir ++ hp.run_name ++ ".pt")
      ↔ hp.save_model = true) ∧
    (hp.save_model = false → onTrainEnd hp = none) := by
  cases hsm : hp.save_model with
  | false => simp [onTrainEnd, hsm]
  | true => simp [onTrainEnd, hsm]

/-- Hparams fixture with saving disabled. -/
def hpNoSave : Hparams :=
  ⟨1 / 100000, 512, "google/deplot", "/data/bartley/gpu_test/models/",
   "run1", false⟩

/-- Witness for C5 at a concrete hparams value with `save_model = false`. -/
theorem on_train_end_witness :
    (onTrainEnd hpNoSave
        = some (hpNoSave.model_save_dir ++ hpNoSave.run_name ++ ".pt")
      ↔ hpNoSave.save_model = true) ∧
    (hpNoSave.save_model = false → onTrainEnd hpNoSave = none) :=
  on_train_end_saves_iff_flag hpNoSave

/-- C6: on a batch with all keys present, the validation step returns no
value to its caller (`ret = none`) even though it logs, generates,
decodes and scores, whereas the training step on the same batch returns
the scalar loss of the forward pass. -/
theorem validation_returns_none_training_returns_loss
    (hp : Hparams) (tok : Tokenizer)
    (forward : Tensor → Tensor → List (List Nat) → Int)
    (generate : Tensor → Tensor → GenerateCall → List (List Nat))
    (batchDecode : List (List Nat) → List String)
    (metricCompute : List (List String × List String) → Int)
    (metricState : List (List String × List String))
    (batch : StepBatch) (labels : List (List Nat)) (fp am : Tensor)
    (gts : List String)
    (hl : batch.labels = some labels)
    (hf : batch.flattened_patches = some fp)
    (ha : batch.attention_mask = some am)
    (ht : batch.texts = some gts) :
    (∃ outv, validationStep hp tok forward generate batchDecode metricCompute
        metricState batch = .ok outv ∧ outv.ret = none) ∧
    (∃ outt, trainingStep hp tok forward generate batchDecode metricCompute
        metricState batch = .ok outt ∧
      outt.ret = some (forward fp am labels)) := by
  obtain ⟨bl, bf, ba, bt⟩ := batch
  have hl' : bl = some labels := hl
  have hf' : bf = some fp := hf
  have ha' : ba = some am := ha
  have ht' : bt = some gts := ht
  subst hl' hf' ha' ht'
  exact ⟨⟨_, validationStep_eq hp tok forward generate batchDecode
      metricCompute metricState labels fp am gts, rfl⟩,
    ⟨_, sharedStep_train_eq hp tok forward generate batchDecode
      metricCompute metricState labels fp am (some gts), rfl⟩⟩

/-- Witness for C6 at the concrete fixtures. -/
theorem validation_none_witness :
    batch0.labels = some [[1, 2], [3]] ∧
    batch0.flattened_patches = some ⟨[4, 10]⟩ ∧
    batch0.attention_mask = some ⟨[4]⟩ ∧
    batch0.texts = some ["t1", "t2"] ∧
    ((∃ outv, validationStep hp0 tok0 forward0 generate0 decode0 metric0 []
        batch0 = .ok outv ∧ outv.ret = none) ∧
     (∃ outt, trainingStep hp0 tok0 forward0 generate0 decode0 metric0 []
        batch0 = .ok outt ∧ outt.ret = some 7)) :=
  ⟨rfl, rfl, rfl, rfl,
   validation_returns_none_training_returns_loss hp0 tok0 forward0 generate0
     decode0 metric0 [] batch0 [[1, 2], [3]] ⟨[4, 10]⟩ ⟨[4]⟩ ["t1", "t2"]
     rfl rfl rfl rfl⟩

/-- C7: the validation step issues exactly one `generate` call, whose
`max_new_tokens` is the configured max length, which uses early stopping
(and the kv cache), and whose eos and pad token identifiers are the ones
supplied by the processor's tokenizer. -/
theorem validation_generate_call_args
    (hp : Hparams) (tok : Tokenizer)
    (forward : Tensor → Tensor → List (List Nat) → Int)
    (generate : Tensor → Tensor → GenerateCall → List (List Nat))
    (batchDecode : List (List Nat) → List String)
    (metricCompute : List (List String × List String) → Int)
    (metricState : List (List String × List String))
    (batch : StepBatch) (labels : List (List Nat)) (fp am : Tensor)
    (gts : List String)
    (hl : batch.labels = some labels)
    (hf : batch.flattened_patches = some fp)
    (ha : batch.attention_mask = some am)
    (ht : batch.texts = some gts) :
    ∃ out, validationStep hp tok forward generate batchDecode metricCompute
        metricState batch = .ok out ∧
      out.generateCalls
        = [{ max_new_tokens := hp.max_length
             early_stopping := true
             use_cache := true
             eos_token_id := tok.eos_token_id
             pad_token_id := tok.pad_token_id }] := by
  obtain ⟨bl, bf, ba, bt⟩ := batch
  have hl' : bl = some labels := hl
  have hf' : bf = some fp := hf
  have ha' : ba = some am := ha
  have ht' : bt = some gts := ht
  subst hl' hf' ha' ht'
  exact ⟨_, validationStep_eq hp tok forward generate batchDecode
    metricCompute metricState labels fp am gts, rfl⟩

/-- Witness for C7 at the concrete fixtures. -/
theorem generate_call_witness :
    batch0.labels = some [[1, 2], [3]] ∧
    batch0.flattened_patches = some ⟨[4, 10]⟩ ∧
    batch0.attention_mask = some ⟨[4]⟩ ∧
    batch0.texts = some ["t1", "t2"] ∧
    ∃ out, validationStep hp0 tok0 forward0 generate0 decode0 metric0 []
        batch0 = .ok out ∧
      out.generateCalls = [{ max_new_tokens := 512, early_stopping := true,
                             use_cache := true, eos_token_id := 1,
                             pad_token_id := 0 }] :=
  ⟨rfl, rfl, rfl, rfl,
   validation_generate_call_args hp0 tok0 forward0 generate0 decode0 metric0
     [] batch0 [[1, 2], [3]] ⟨[4, 10]⟩ ⟨[4]⟩ ["t1", "t2"] rfl rfl rfl rfl⟩

/-- C8: on a batch of texts whose tokenized sequences all already have
one shared length not exceeding the max length, tokenizing with
"longest" padding is idempotent: the output rows are exactly the
unpadded, untruncated tokenizations. -/
theorem pad_longest_idempotent_on_equal_lengths
    (tokenize : String → List Nat) (padId maxLength L : Nat)
    (texts : List String)
    (hlen : ∀ t ∈ texts, (tokenize t).length = L) (hle : L ≤ maxLength) :
    tokenizePadLongest tokenize padId maxLength texts = texts.map tokenize := by
  have htrunc : texts.map (fun t => (tokenize t).take maxLength)
      = texts.map tokenize := by
    refine List.map_congr_left ?_
    intro t ht
    apply List.take_of_length_le
    rw [hlen t ht]
    exact hle
  unfold tokenizePadLongest
  rw [htrunc]
  cases texts with
  | nil => rfl
  | cons t ts =>
      have hfold : (((t :: ts).map tokenize).map List.length).foldr Nat.max 0
          = L := by
        apply foldr_max_const (by simp)
        intro x hx
        rcases List.mem_map.mp hx with ⟨s, hs, rfl⟩
        rcases List.mem_map.mp hs with ⟨u, hu, rfl⟩
        exact hlen u hu
      rw [hfold]
      apply map_id_on
      intro s hs
      rcases List.mem_map.mp hs with ⟨u, hu, rfl⟩
      rw [hlen u hu]
      simp

/-- Witness for C8: two texts tokenizing to length 2 each, under a max
length of 512. -/
theorem pad_longest_witness :
    (∀ t ∈ ["ab", "cd"], (tok5 t).length = 2) ∧ 2 ≤ 512 ∧
    tokenizePadLongest tok5 0 512 ["ab", "cd"] = ["ab", "cd"].map tok5 :=
  ⟨by decide, by decide,
   pad_longest_idempotent_on_equal_lengths tok5 0 512 2 ["ab", "cd"]
     (by decide) (by decide)⟩

/-- C9: `validation_step_outputs` is empty at module construction and
stays empty under every sequence of training steps, validation steps and
epoch-end hooks: no operation appends to it, and the epoch-end hook
always clears an already-empty container. -/
theorem validation_step_outputs_always_empty (ops : List ModuleOp) :
    (ops.foldl applyOp initContainers).validation_step_outputs = [] := by
  have aux : ∀ (l : List ModuleOp) (s : ContainerState),
      s.validation_step_outputs = [] →
      (l.foldl applyOp s).validation_step_outputs = [] := by
    intro l
    induction l with
    | nil => intro s hs; exact hs
    | cons op rest ih =>
        intro s hs
        cases op with
        | trainingStepOp => exact ih s hs
        | validationStepOp => exact ih s hs
        | validationEpochEndOp => exact ih _ rfl
  exact aux ops initContainers rfl

/-- C10: `_shared_step` consumes its batch argument: after a training
step the keys `labels`, `flattened_patches` and `attention_mask` have
been popped from the mapping (and `texts` survives), after a validation
step `texts` is popped as well, and in both cases the resulting mapping
differs from the caller's original batch. -/
theorem shared_step_mutates_batch_in_place
    (hp : Hparams) (tok : Tokenizer)
    (forward : Tensor → Tensor → List (List Nat) → Int)
    (generate : Tensor → Tensor → GenerateCall → List (List Nat))
    (batchDecode : List (List Nat) → List String)
    (metricCompute : List (List String × List String) → Int)
    (metricState : List (List String × List String))
    (batch : StepBatch) (labels : List (List Nat)) (fp am : Tensor)
    (gts : List String)
    (hl : batch.labels = some labels)
    (hf : batch.flattened_patches = some fp)
    (ha : batch.attention_mask = some am)
    (ht : batch.texts = some gts) :
    (∃ outt, trainingStep hp tok forward generate batchDecode metricCompute
        metricState batch = .ok outt ∧
      outt.batch.labels = none ∧
      outt.batch.flattened_patches = none ∧
      outt.batch.attention_mask = none ∧
      outt.batch.texts = some gts ∧
      outt.batch ≠ batch) ∧
    (∃ outv, validationStep hp tok forward generate batchDecode metricCompute
        metricState batch = .ok outv ∧
      outv.batch.labels = none ∧
      outv.batch.flattened_patches = none ∧
      outv.batch.attention_mask = none ∧
      outv.batch.texts = none ∧
      outv.batch ≠ batch) := by
  obtain ⟨bl, bf, ba, bt⟩ := batch
  have hl' : bl = some labels := hl
  have hf' : bf = some fp := hf
  have ha' : ba = some am := ha
  have ht' : bt = some gts := ht
  subst hl' hf' ha' ht'
  refine ⟨⟨_, sharedStep_train_eq hp tok forward generate batchDecode
      metricCompute metricState labels fp am (some gts),
      rfl, rfl, rfl, rfl, by simp⟩,
    ⟨_, validationStep_eq hp tok forward generate batchDecode
      metricCompute metricState labels fp am gts,
      rfl, rfl, rfl, rfl, by simp⟩⟩

/-- Witness for C10 at the concrete fixtures. -/
theorem shared_step_mutation_witness :
    batch0.labels = some [[1, 2], [3]] ∧
    batch0.flattened_patches = some ⟨[4, 10]⟩ ∧
    batch0.attention_mask = some ⟨[4]⟩ ∧
    batch0.texts = some ["t1", "t2"] ∧
    ((∃ outt, trainingStep hp0 tok0 forward0 generate0 decode0 metric0 []
        batch0 = .ok outt ∧
      outt.batch.labels = none ∧
      outt.batch.flattened_patches = none ∧
      outt.batch.attention_mask = none ∧
      outt.batch.texts = some ["t1", "t2"] ∧
      outt.batch ≠ batch0) ∧
     (∃ outv, validationStep hp0 tok0 forward0 generate0 decode0 metric0 []
        batch0 = .ok outv ∧
      outv.batch.labels = none ∧
      outv.batch.flattened_patches = none ∧
      outv.batch.attention_mask = none ∧
      outv.batch.texts = none ∧
      outv.batch ≠ batch0)) :=
  ⟨rfl, rfl, rfl, rfl,
   shared_step_mutates_batch_in_place hp0 tok0 forward0 generate0 decode0
     metric0 [] batch0 [[1, 2], [3]] ⟨[4, 10]⟩ ⟨[4]⟩ ["t1", "t2"]
     rfl rfl rfl rfl⟩

end Benetech
